import Mathlib

/-!
Verification of the enriched-weather read-through cache pipeline
(`openweathermap-daily-summary-enriched`).

The development shallowly embeds the code that the specification's claims
are about:

* `app/usecases/weather_data_fetcher.py` — `fetch_weather_data` dispatches
  one task per requested calendar day (`asyncio.gather` with
  `return_exceptions=True` preserves the order of the input list, so the
  collection loop is deterministic regardless of the order in which the
  individual day fetches complete), then partitions outcomes into raw
  results and `{date, message}` error entries.
* `app/usecases/weather_service.py` — `get_weather_data` (gap detection
  against the store, fetch of missing days, bulk persist, merge + stable
  sort by date) and `get_weather_data_by_name` (geocoding dispatch).
* `app/usecases/weather_data_processor.py` — the per-row enrichment
  formulas (`season`, `wind_chill`, `humidex`).  The polars expressions
  are column-wise `when/then` chains and arithmetic applied independently
  to every row, so each derived column is embedded as a function of the
  row's fields.
* `app/repositories/weather_repository.py` and `app/main.py` at their
  contract boundary.

Calendar dates are embedded as their `date.toordinal()` value (a natural
number: days since 0001-01-01, so `2024-08-29 ↦ 739127`).  Numeric
latitude/longitude and temperatures are embedded as rationals where only
comparisons and equality matter, and as reals where the code computes
with `sqrt`/powers.
-/

/-- The effect of `WeatherDataFetcher._fetch_single_day` raising, as seen by
the collection loop of `fetch_weather_data`: either an
`httpx.HTTPStatusError` carrying a status code and the response body, or
any other exception (timeout, transport error, …) carrying its `str(...)`
rendering. -/
inductive FetchExc where
  | httpStatus (code : ℕ) (body : String)
  | otherExc (msg : String)
deriving DecidableEq

/-- `weather_data_fetcher.py` lines 55-68: `error_msg = str(result)`; if the
exception is an `httpx.HTTPStatusError` then for status 400 the parsed
response body replaces it, and for every other status the generic text
replaces it. -/
def fetch_error_message : FetchExc → String
  | .httpStatus code body =>
      if code = 400 then body else "Error fetching weather daily summary from API"
  | .otherExc msg => msg

/-- Outcome of the single-day fetch task for one requested date: the task
either returns a validated `WeatherDailySummaryResult` for that date or
raises. -/
inductive DayOutcome where
  | success
  | failure (exc : FetchExc)
deriving DecidableEq

def DayOutcome.isSuccess : DayOutcome → Bool
  | .success => true
  | .failure _ => false

/-- The part of a raw `WeatherDailySummaryResult` the pipeline logic acts
on: the API echoes the requested coordinates and date (`lat`, `lon`,
`date` fields of the day-summary payload). -/
structure RawRecord where
  lat : ℚ
  lon : ℚ
  date : ℕ
deriving DecidableEq

/-- A per-day fetch error entry `{"date": day, "message": error_msg}`. -/
structure FetchError where
  date : ℕ
  message : String
deriving DecidableEq

/-- `WeatherDataFetcher.fetch_weather_data` (lines 32-74): one task per
requested date, `asyncio.gather(*tasks, return_exceptions=True)`, then a
loop over `zip(results, dates)` appending successes to `api_results` and
failures to `api_errors`.  `gather` returns outcomes positionally, so the
embedding folds over the date list; the per-date outcome function models
which tasks raise. -/
def fetch_weather_data (lat lon : ℚ) (outcome : ℕ → DayOutcome) :
    List ℕ → List RawRecord × List FetchError
  | [] => ([], [])
  | d :: rest =>
      let tail := fetch_weather_data lat lon outcome rest
      match outcome d with
      | .success => (⟨lat, lon, d⟩ :: tail.1, tail.2)
      | .failure exc => (tail.1, ⟨d, fetch_error_message exc⟩ :: tail.2)

/-- A persisted `WeatherDailySummary` row at the granularity the service
logic inspects: its identity key `(latitude, longitude, date)`.  All other
columns are carried opaquely by the real ORM row and never read by
`get_weather_data`'s control flow. -/
structure StoredSummary where
  latitude : ℚ
  longitude : ℚ
  date : ℕ
deriving DecidableEq

/-- `WeatherRepository.get_daily_summaries`: `SELECT ... WHERE latitude ==
lat AND longitude == lon AND date >= start_date AND date <= end_date`
over the store's rows. -/
def get_daily_summaries (store : List StoredSummary) (lat lon : ℚ) (s e : ℕ) :
    List StoredSummary :=
  store.filter fun r =>
    decide (r.latitude = lat ∧ r.longitude = lon ∧ s ≤ r.date ∧ r.date ≤ e)

/-- `WeatherRepository.bulk_create_daily_summaries`: `session.add_all` then
`flush`; returns the persisted rows.  The store grows by exactly the given
rows. -/
def bulk_create_daily_summaries (store rows : List StoredSummary) :
    List StoredSummary × List StoredSummary :=
  (store ++ rows, rows)

/-- The date-projection of `WeatherDataProcessor.process_data`: the polars
pipeline renames `lat`/`lon`, parses the `date` column in place and adds
derived columns with `with_columns`, which keeps the rows of the input
frame one-to-one and in order.  One `WeatherDailySummary` is constructed
per processed row (`weather_service.py` lines 156-164). -/
def process_data (rs : List RawRecord) : List StoredSummary :=
  rs.map fun r => ⟨r.lat, r.lon, r.date⟩

/-- `settings.weather_service_max_date_range` (config default 31);
`WeatherService.MAX_DATE_RANGE = timedelta(days=31)`. -/
def maxDateRange : ℤ := 31

/-- `WeatherService._validate_date_range` (lines 41-56): raises exactly when
`end_date - start_date > MAX_DATE_RANGE`.  Python subtracts dates to a
(possibly negative) timedelta, so the embedding compares over ℤ. -/
def _validate_date_range (s e : ℕ) : Bool :=
  decide ((e : ℤ) - (s : ℤ) > maxDateRange)

/-- The message of the raised `WeatherServiceInputError`:
`f"Date range exceeds maximum allowed ({self.MAX_DATE_RANGE.days} days)"`. -/
def dateRangeErrorMessage : String :=
  "Date range exceeds maximum allowed (" ++ toString maxDateRange ++ " days)"

/-- An entry of a response's `errors` list: `get_weather_data_by_name` and
the `main.py` exception handler emit `{"message": ...}` objects, the
fetcher emits `{"date": ..., "message": ...}` objects. -/
inductive ServiceError where
  | general (message : String)
  | perDay (date : ℕ) (message : String)
deriving DecidableEq

/-- A geocoding candidate (`GeocodingResult`), at the granularity the
service reads: its `lat`/`lon`. -/
structure GeocodingResult where
  lat : ℚ
  lon : ℚ
deriving DecidableEq

/-- The service's `WeatherServiceResponse` (weather rows at key
granularity, errors, geocoding candidates). -/
structure WeatherServiceResponse where
  weather_data : List StoredSummary
  errors : List ServiceError
  geocoding_results : List GeocodingResult
deriving DecidableEq

/-- `weather_service.py` lines 144-147: the set comprehension
`{date.fromordinal(d) for d in range(start.toordinal(), end.toordinal()+1)}`
— all calendar days of the inclusive range, as the sorted duplicate-free
list `range' s (e+1-s)` (empty when `e < s`, since ℕ subtraction
truncates exactly as Python's empty `range`). -/
def allDates (s e : ℕ) : List ℕ := List.range' s (e + 1 - s)

/-- `weather_service.py` lines 143-148: `existing_dates = {summary.date for
summary in existing_summaries}`; `missing_dates = sorted(all_dates -
existing_dates)`.  Filtering the sorted duplicate-free `allDates` list is
exactly the sorted list of the set difference. -/
def missingDates (store : List StoredSummary) (lat lon : ℚ) (s e : ℕ) : List ℕ :=
  let existing_dates := (get_daily_summaries store lat lon s e).map (·.date)
  (allDates s e).filter fun d => decide (d ∉ existing_dates)

/-- `WeatherService.get_weather_data` (lines 117-187) after the validation
step: read existing rows, compute missing dates, fetch them, and — only
when `api_results` is non-empty — process and bulk-persist the new rows and
extend the in-memory list with the persisted rows; finally the combined
list is stably sorted by date (Python `list.sort(key=lambda x: x.date)`).
Returns the response together with the resulting store state. -/
def get_weather_data_core (store : List StoredSummary) (outcome : ℕ → DayOutcome)
    (lat lon : ℚ) (s e : ℕ) : WeatherServiceResponse × List StoredSummary :=
  let existing_summaries := get_daily_summaries store lat lon s e
  let missing_dates := missingDates store lat lon s e
  let fetched := fetch_weather_data lat lon outcome missing_dates
  let api_results := fetched.1
  let api_errors := fetched.2
  let afterSave :=
    if api_results.isEmpty then (existing_summaries, store)
    else
      let new_summaries := process_data api_results
      let saved := bulk_create_daily_summaries store new_summaries
      (existing_summaries ++ saved.2, saved.1)
  let sortedRows :=
    List.insertionSort (fun a b : StoredSummary => a.date ≤ b.date) afterSave.1
  (⟨sortedRows, api_errors.map fun er => ServiceError.perDay er.date er.message, []⟩,
    afterSave.2)

/-- `WeatherService.get_weather_data` with its `_validate_date_range` call:
an oversized range raises `WeatherServiceInputError` (embedded as
`Except.error` carrying the exception's message). -/
def get_weather_data (store : List StoredSummary) (outcome : ℕ → DayOutcome)
    (lat lon : ℚ) (s e : ℕ) :
    Except String (WeatherServiceResponse × List StoredSummary) :=
  if _validate_date_range s e then .error dateRangeErrorMessage
  else .ok (get_weather_data_core store outcome lat lon s e)

/-- Outcome of `fetch_coordinates`: a candidate list, or a raised
`WeatherDataFetcherError`. -/
inductive GeoOutcome where
  | ok (results : List GeocodingResult)
  | fetchError
deriving DecidableEq

/-- `WeatherService.get_weather_data_by_name` (lines 58-115): validate the
range, geocode (a raised `WeatherDataFetcherError` is caught and treated
as `[]`), then branch on the candidate list: empty → one "not found"
error; more than one → one "specify coordinates manually" error plus all
candidates; exactly one → coordinate-based resolve on that candidate with
the candidate list attached to the response. -/
def get_weather_data_by_name (store : List StoredSummary) (outcome : ℕ → DayOutcome)
    (geo : GeoOutcome) (location_name : String) (s e : ℕ) :
    Except String (WeatherServiceResponse × List StoredSummary) :=
  if _validate_date_range s e then .error dateRangeErrorMessage
  else
    let geocoding_results := match geo with
      | .ok rs => rs
      | .fetchError => []
    match geocoding_results with
    | [] =>
        .ok (⟨[], [.general ("Could not find coordinates for location: "
            ++ location_name)], []⟩, store)
    | [c] =>
        let resolved := get_weather_data_core store outcome c.lat c.lon s e
        .ok (⟨resolved.1.weather_data, resolved.1.errors, [c]⟩, resolved.2)
    | rs =>
        .ok (⟨[], [.general
            "Multiple locations found. Please specify coordinates manually."], rs⟩,
          store)

/-- `main.py` lines 59-68: the `WeatherServiceInputError` handler turns the
raised exception into a 400 JSON body `{"errors": [{"message": str(exc)}]}`. -/
structure RouteResponse where
  status_code : ℕ
  weather_data : List StoredSummary
  errors : List ServiceError
deriving DecidableEq

/-- The message the collection loop of `fetch_weather_data` attaches to a
day whose task ended in the given outcome (only ever applied to
failures; a successful day produces no error entry). -/
def outcome_message : DayOutcome → String
  | .success => ""
  | .failure exc => fetch_error_message exc

/- ------------------------------------------------------------------ -/
/- Enrichment engine (`weather_data_processor.py`), per-row.            -/
/- ------------------------------------------------------------------ -/

/-- `_add_seasonal_classification` (lines 160-178): the polars `when/then`
chain evaluated on one row's `temp_afternoon` (Kelvin); the first matching
branch wins, exactly as `pl.when` chains do. -/
def season (temp_afternoon : ℚ) : String :=
  if 303.15 ≤ temp_afternoon then "Summer"
  else if 293.15 ≤ temp_afternoon ∧ temp_afternoon < 303.15 then
    "Late Spring/Early Fall"
  else if 283.15 ≤ temp_afternoon ∧ temp_afternoon < 293.15 then "Spring/Fall"
  else "Winter"

/-- The arithmetic of `_add_wind_chill` (lines 228-249):
`306.15 - (0.453843·√v + 0.464255 - 0.0453843·v) · (306.15 - T)`. -/
noncomputable def wind_chill_value (temp_k wind_speed : ℝ) : ℝ :=
  306.15 - (0.453843 * Real.sqrt wind_speed + 0.464255 - 0.0453843 * wind_speed)
    * (306.15 - temp_k)

/-- `_add_wind_chill` on one row: the value is kept only when
`wind_chill_applicable = (temp_k <= 283.15) & (wind_speed > 1.33)`,
otherwise the column is null (`otherwise(None)`).  Inputs are the row's
rationals (the applicability test is exact); the value lives in ℝ because
of the square root. -/
noncomputable def wind_chill (temp_afternoon wind_speed_max : ℚ) : Option ℝ :=
  if temp_afternoon ≤ 283.15 ∧ 1.33 < wind_speed_max then
    some (wind_chill_value temp_afternoon wind_speed_max)
  else none

/-- `_add_humidex` (lines 191-212) on one row: Celsius conversion,
dewpoint from afternoon relative humidity, humidex, conversion back to
Kelvin.  `**` on floats is embedded as real exponentiation `rpow`. -/
noncomputable def humidex (temp_afternoon humidity_afternoon : ℝ) : ℝ :=
  let temp_c := temp_afternoon - 273.15
  let dewpoint :=
    (humidity_afternoon / 100) ^ ((1 : ℝ) / 8) * (112 + 0.9 * temp_c)
      + 0.1 * temp_c - 112
  let hum := temp_c
      + 0.5555 * (6.11 * (10 : ℝ) ^ (7.5 * dewpoint / (237.7 + dewpoint)) - 10)
  hum + 273.15

/-- Modelled from the spec (§4.2, claim C9's reference formula), to be
compared with the source-derived `humidex`: `t = T - 273.15`;
`d = (RH/100)^(1/8) * (112 + 0.9t) + 0.1t - 112`;
`humidex_C = t + 0.5555 * (6.11 * 10^(7.5d/(237.7+d)) - 10)`; result
`humidex_C + 273.15`. -/
noncomputable def humidexReference (T RH : ℝ) : ℝ :=
  let t := T - 273.15
  let d := (RH / 100) ^ ((1 : ℝ) / 8) * (112 + 0.9 * t) + 0.1 * t - 112
  let humidex_C := t + 0.5555 * (6.11 * (10 : ℝ) ^ (7.5 * d / (237.7 + d)) - 10)
  humidex_C + 273.15

/-- The coordinate branch of `routes/weather.py::get_weather` composed with
the `main.py` exception handler: a raised `WeatherServiceInputError`
becomes status 400 with a single `{"message": ...}` error and no weather
rows; a returned response is served with status 206 when its `errors` list
is non-empty and 200 otherwise. -/
def route_get_weather (store : List StoredSummary) (outcome : ℕ → DayOutcome)
    (lat lon : ℚ) (s e : ℕ) : RouteResponse :=
  match get_weather_data store outcome lat lon s e with
  | .error msg => ⟨400, [], [.general msg]⟩
  | .ok resp =>
      ⟨if resp.1.errors.isEmpty then 200 else 206, resp.1.weather_data, resp.1.errors⟩

/- ------------------------------------------------------------------ -/
/- Shared lemmas.                                                      -/
/- ------------------------------------------------------------------ -/

/-- The successful fetches are exactly the requested dates whose task
succeeds, in request order, each yielding the day-summary record for the
requested coordinates and date. -/
theorem fetch_weather_data_fst (lat lon : ℚ) (o : ℕ → DayOutcome) (dates : List ℕ) :
    (fetch_weather_data lat lon o dates).1
      = (dates.filter fun d => (o d).isSuccess).map
          fun d => (⟨lat, lon, d⟩ : RawRecord) := by
  induction dates with
  | nil => rfl
  | cons d rest ih =>
      cases h : o d <;>
        simp [fetch_weather_data, h, List.filter_cons, DayOutcome.isSuccess, ih]

/-- The error entries are exactly the requested dates whose task fails, in
request order, each carrying its classified message. -/
theorem fetch_weather_data_snd (lat lon : ℚ) (o : ℕ → DayOutcome) (dates : List ℕ) :
    (fetch_weather_data lat lon o dates).2
      = (dates.filter fun d => !(o d).isSuccess).map
          fun d => (⟨d, outcome_message (o d)⟩ : FetchError) := by
  induction dates with
  | nil => rfl
  | cons d rest ih =>
      cases h : o d <;>
        simp [fetch_weather_data, h, List.filter_cons, DayOutcome.isSuccess,
          outcome_message, ih]

theorem length_filter_add_length_filter_not {α : Type} (p : α → Bool) (l : List α) :
    (l.filter p).length + (l.filter fun a => !p a).length = l.length := by
  induction l with
  | nil => rfl
  | cons a l ih =>
      by_cases h : p a <;> simp [List.filter_cons, h] <;> omega

/-- Membership in the repository's date-range query. -/
theorem mem_get_daily_summaries {store : List StoredSummary} {lat lon : ℚ}
    {s e : ℕ} {r : StoredSummary} :
    r ∈ get_daily_summaries store lat lon s e ↔
      r ∈ store ∧ r.latitude = lat ∧ r.longitude = lon ∧ s ≤ r.date ∧ r.date ≤ e := by
  simp [get_daily_summaries, List.mem_filter]

/-- Membership in the missing-date list: the calendar days of the range
not already stored for these coordinates. -/
theorem mem_missingDates {store : List StoredSummary} {lat lon : ℚ} {s e d : ℕ} :
    d ∈ missingDates store lat lon s e ↔
      s ≤ d ∧ d ≤ e ∧
        d ∉ (get_daily_summaries store lat lon s e).map (·.date) := by
  simp only [missingDates, List.mem_filter, allDates, List.mem_range'_1,
    decide_eq_true_iff]
  constructor
  · rintro ⟨⟨h1, h2⟩, h3⟩
    exact ⟨h1, by omega, h3⟩
  · rintro ⟨h1, h2, h3⟩
    exact ⟨⟨h1, by omega⟩, h3⟩

/-- The missing-date list is strictly ascending (hence duplicate-free). -/
theorem missingDates_sorted (store : List StoredSummary) (lat lon : ℚ) (s e : ℕ) :
    List.Sorted (· < ·) (missingDates store lat lon s e) := by
  have h : List.Pairwise (· < ·) (allDates s e) := List.pairwise_lt_range' s _
  exact List.Pairwise.sublist (List.filter_sublist _) h


/- ------------------------------------------------------------------ -/
/- Claims.                                                             -/
/- ------------------------------------------------------------------ -/

/-- C7: for every enriched row, `season` is "Summer" when the afternoon
temperature is ≥ 303.15 K, "Late Spring/Early Fall" on [293.15, 303.15),
"Spring/Fall" on [283.15, 293.15) and "Winter" below — each band closed at
its lower bound and open at its upper bound; in particular exactly
303.15 K classifies as "Summer" and exactly 293.15 K as "Late
Spring/Early Fall". -/
theorem c7_season_bands :
    (∀ t : ℚ,
      (303.15 ≤ t → season t = "Summer") ∧
      (293.15 ≤ t → t < 303.15 → season t = "Late Spring/Early Fall") ∧
      (283.15 ≤ t → t < 293.15 → season t = "Spring/Fall") ∧
      (t < 283.15 → season t = "Winter")) ∧
    season 303.15 = "Summer" ∧ season 293.15 = "Late Spring/Early Fall" := by
  have main : ∀ t : ℚ,
      (303.15 ≤ t → season t = "Summer") ∧
      (293.15 ≤ t → t < 303.15 → season t = "Late Spring/Early Fall") ∧
      (283.15 ≤ t → t < 293.15 → season t = "Spring/Fall") ∧
      (t < 283.15 → season t = "Winter") := by
    intro t
    refine ⟨?_, ?_, ?_, ?_⟩
    · intro h
      rw [season, if_pos h]
    · intro h1 h2
      rw [season, if_neg (by linarith), if_pos ⟨h1, h2⟩]
    · intro h1 h2
      rw [season, if_neg (by linarith),
        if_neg (by rintro ⟨ha, _⟩; linarith), if_pos ⟨h1, h2⟩]
    · intro h
      rw [season, if_neg (by linarith),
        if_neg (by rintro ⟨ha, _⟩; linarith),
        if_neg (by rintro ⟨ha, _⟩; linarith)]
  exact ⟨main, (main 303.15).1 (by norm_num),
    (main 293.15).2.1 (by norm_num) (by norm_num)⟩

/-- Witness for C7: a temperature in each band, evaluated concretely. -/
theorem c7_season_bands_witness :
    ((303.15 : ℚ) ≤ 310 ∧ season 310 = "Summer") ∧
    ((283.15 : ℚ) ≤ 290 ∧ (290 : ℚ) < 293.15 ∧ season 290 = "Spring/Fall") :=
  ⟨⟨by norm_num, (c7_season_bands.1 310).1 (by norm_num)⟩,
   ⟨by norm_num, by norm_num,
     (c7_season_bands.1 290).2.2.1 (by norm_num) (by norm_num)⟩⟩

/-- C9: the source's `_add_humidex` per-row value coincides, for every
afternoon temperature `T` and afternoon relative humidity `RH`, with the
spec's reference formula (`t = T-273.15`; `d = (RH/100)^(1/8)·(112+0.9t)
+ 0.1t - 112`; `humidex_C = t + 0.5555·(6.11·10^(7.5d/(237.7+d)) - 10)`;
result `humidex_C + 273.15`). -/
theorem c9_humidex_matches_reference :
    ∀ T RH : ℝ, humidex T RH = humidexReference T RH := fun _ _ => rfl

/-- C10: for an inverted range (start strictly after end) the validation
passes, no date is handed to the fetcher, the store is untouched, and the
call returns an empty response with no errors. -/
theorem c10_inverted_range_empty (store : List StoredSummary)
    (outcome : ℕ → DayOutcome) (lat lon : ℚ) (s e : ℕ) (h : e < s) :
    _validate_date_range s e = false ∧
    missingDates store lat lon s e = [] ∧
    get_weather_data store outcome lat lon s e = .ok (⟨[], [], []⟩, store) := by
  have hv : _validate_date_range s e = false := by
    have : (e : ℤ) - (s : ℤ) ≤ maxDateRange := by
      have : (e : ℤ) < (s : ℤ) := by exact_mod_cast h
      simp only [maxDateRange]; linarith
    simpa [_validate_date_range] using not_lt.mpr this
  have hall : allDates s e = [] := by
    have h0 : e + 1 - s = 0 := by omega
    simp [allDates, h0]
  have hexist : get_daily_summaries store lat lon s e = [] := by
    rw [get_daily_summaries, List.filter_eq_nil_iff]
    intro r _ hc
    rw [decide_eq_true_iff] at hc
    omega
  have hmiss : missingDates store lat lon s e = [] := by
    simp [missingDates, hall]
  refine ⟨hv, hmiss, ?_⟩
  rw [get_weather_data, hv]
  simp only [Bool.false_eq_true, if_false]
  rw [get_weather_data_core, hexist, hmiss]
  rfl

/-- Witness for C10: a concrete inverted range over a non-empty store. -/
theorem c10_inverted_range_empty_witness :
    (3 : ℕ) < 5 ∧
    (_validate_date_range 5 3 = false ∧
     missingDates [⟨1, 2, 10⟩] 1 2 5 3 = [] ∧
     get_weather_data [⟨1, 2, 10⟩] (fun _ => DayOutcome.success) 1 2 5 3
       = .ok (⟨[], [], []⟩, [⟨1, 2, 10⟩])) :=
  ⟨by decide,
   c10_inverted_range_empty [⟨1, 2, 10⟩] (fun _ => DayOutcome.success) 1 2 5 3
     (by decide)⟩

/-- C5 counterexample: a non-HTTP-status failure (e.g. a transport error
whose `str(...)` is "Connection timed out") is surfaced with the
exception's own text, not with the claimed generic message — the wrapped
exception's internals do leak, and the generic text the code uses is
capitalised differently from the claimed one. -/
theorem c5_counterexample :
    fetch_weather_data 0 0 (fun _ => .failure (.otherExc "Connection timed out"))
        [739127]
      = ([], [⟨739127, "Connection timed out"⟩]) ∧
    "Connection timed out" ≠ "error fetching weather daily summary from API" :=
  ⟨rfl, by decide⟩

/-- C5 (amended): the error entry for a failed day is `{date, message}`
where the message is the upstream response body exactly when the failure
is an `HTTPStatusError` with status exactly 400; for an `HTTPStatusError`
with any other status (404, 5xx, …) it is the generic "Error fetching
weather daily summary from API"; and for any other failure (timeout,
transport error) it is the exception's own string rendering. -/
theorem c5_error_classification (lat lon : ℚ) (d code : ℕ) (body msg : String) :
    (code = 400 →
      fetch_weather_data lat lon (fun _ => .failure (.httpStatus code body)) [d]
        = ([], [⟨d, body⟩])) ∧
    (code ≠ 400 →
      fetch_weather_data lat lon (fun _ => .failure (.httpStatus code body)) [d]
        = ([], [⟨d, "Error fetching weather daily summary from API"⟩])) ∧
    fetch_weather_data lat lon (fun _ => .failure (.otherExc msg)) [d]
      = ([], [⟨d, msg⟩]) := by
  refine ⟨?_, ?_, rfl⟩
  · intro h
    subst h
    rfl
  · intro h
    simp [fetch_weather_data, fetch_error_message, h]

/-- Witness for C5: a 400 response body is preserved, a 500 is not. -/
theorem c5_error_classification_witness :
    ((400 : ℕ) = 400 ∧
      fetch_weather_data 0 0 (fun _ => .failure (.httpStatus 400 "bad latitude"))
          [739127]
        = ([], [⟨739127, "bad latitude"⟩])) ∧
    ((500 : ℕ) ≠ 400 ∧
      fetch_weather_data 0 0 (fun _ => .failure (.httpStatus 500 "oops")) [739127]
        = ([], [⟨739127, "Error fetching weather daily summary from API"⟩])) :=
  ⟨⟨rfl, (c5_error_classification 0 0 739127 400 "bad latitude" "").1 rfl⟩,
   ⟨by decide,
     (c5_error_classification 0 0 739127 500 "oops" "").2.1 (by decide)⟩⟩

/-- C3: `fetch_weather_data` collects every requested day's outcome: the
results list holds exactly the successful days' records and the errors
list exactly the failed days' `{date, message}` entries (so each requested
date contributes exactly one element, and one day's failure never removes
another day's success); in particular for three requested days where only
the second fails, the call returns the first and third records plus one
error entry referencing the second day. -/
theorem c3_per_day_isolation :
    (∀ (lat lon : ℚ) (o : ℕ → DayOutcome) (dates : List ℕ),
      (fetch_weather_data lat lon o dates).1
          = (dates.filter fun d => (o d).isSuccess).map
              (fun d => (⟨lat, lon, d⟩ : RawRecord)) ∧
      (fetch_weather_data lat lon o dates).2
          = (dates.filter fun d => !(o d).isSuccess).map
              (fun d => (⟨d, outcome_message (o d)⟩ : FetchError)) ∧
      (fetch_weather_data lat lon o dates).1.length
          + (fetch_weather_data lat lon o dates).2.length = dates.length) ∧
    (∀ (lat lon : ℚ) (exc : FetchExc) (d1 d2 d3 : ℕ), d1 ≠ d2 → d3 ≠ d2 →
      fetch_weather_data lat lon
          (fun d => if d = d2 then .failure exc else .success) [d1, d2, d3]
        = ([⟨lat, lon, d1⟩, ⟨lat, lon, d3⟩], [⟨d2, fetch_error_message exc⟩])) := by
  constructor
  · intro lat lon o dates
    refine ⟨fetch_weather_data_fst lat lon o dates,
      fetch_weather_data_snd lat lon o dates, ?_⟩
    rw [fetch_weather_data_fst, fetch_weather_data_snd, List.length_map,
      List.length_map]
    exact length_filter_add_length_filter_not _ dates
  · intro lat lon exc d1 d2 d3 h1 h3
    simp [fetch_weather_data, h1, h3]

/-- Witness for C3's three-day scenario at concrete days 1, 2, 3. -/
theorem c3_per_day_isolation_witness :
    (1 : ℕ) ≠ 2 ∧ (3 : ℕ) ≠ 2 ∧
    fetch_weather_data 1 2
        (fun d => if d = 2 then .failure (.otherExc "boom") else .success) [1, 2, 3]
      = ([⟨1, 2, 1⟩, ⟨1, 2, 3⟩], [⟨2, fetch_error_message (.otherExc "boom")⟩]) :=
  ⟨by decide, by decide,
    c3_per_day_isolation.2 1 2 (.otherExc "boom") 1 2 3 (by decide) (by decide)⟩

/-- C8: `wind_chill` is non-null exactly when the afternoon temperature is
≤ 283.15 K and the max wind speed is > 1.33 m/s (null for any warmer
temperature regardless of wind, and for any slower wind regardless of
temperature), and when non-null it equals
`306.15 - (0.453843·√v + 0.464255 - 0.0453843·v) · (306.15 - T)`. -/
theorem c8_wind_chill_applicability (T v : ℚ) :
    (wind_chill T v ≠ none ↔ (T ≤ 283.15 ∧ 1.33 < v)) ∧
    (283.15 < T → wind_chill T v = none) ∧
    (v ≤ 1.33 → wind_chill T v = none) ∧
    (T ≤ 283.15 → 1.33 < v →
      wind_chill T v
        = some (306.15 - (0.453843 * Real.sqrt (v : ℝ) + 0.464255
            - 0.0453843 * (v : ℝ)) * (306.15 - (T : ℝ)))) := by
  refine ⟨?_, ?_, ?_, ?_⟩
  · unfold wind_chill
    split_ifs with h <;> simp [h]
  · intro h
    unfold wind_chill
    rw [if_neg]
    rintro ⟨h1, _⟩
    linarith
  · intro h
    unfold wind_chill
    rw [if_neg]
    rintro ⟨_, h2⟩
    linarith
  · intro h1 h2
    unfold wind_chill wind_chill_value
    rw [if_pos ⟨h1, h2⟩]

/-- Witness for C8: an applicable row (283 K, 4 m/s). -/
theorem c8_wind_chill_applicability_witness :
    ((283 : ℚ) ≤ 283.15 ∧ (1.33 : ℚ) < 4) ∧
    wind_chill 283 4
      = some (306.15 - (0.453843 * Real.sqrt ((4 : ℚ) : ℝ) + 0.464255
          - 0.0453843 * ((4 : ℚ) : ℝ)) * (306.15 - ((283 : ℚ) : ℝ))) :=
  ⟨⟨by norm_num, by norm_num⟩,
   (c8_wind_chill_applicability 283 4).2.2.2 (by norm_num) (by norm_num)⟩

/-- C4 counterexample: the range `[0, 31]` (ordinals; any 32-day inclusive
window, e.g. 2024-08-30 … 2024-09-30) has inclusive day count
32 > 31 = `maxDateRange`, yet the code does not reject it: validation
passes and the request is served normally (here with a success outcome
for every day: 32 weather rows, no error).  The rejection condition is
`end - start > max`, not "inclusive day count > max". -/
theorem c4_counterexample :
    ((31 : ℤ) - 0 + 1 > maxDateRange) ∧
    _validate_date_range 0 31 = false ∧
    (route_get_weather [] (fun _ => DayOutcome.success) 0 0 0 31).status_code = 200 ∧
    (route_get_weather [] (fun _ => DayOutcome.success) 0 0 0 31).errors = [] ∧
    (route_get_weather [] (fun _ => DayOutcome.success) 0 0 0 31).weather_data.length
      = 32 := by
  refine ⟨by decide, by decide, ?_, ?_, ?_⟩ <;> decide

/-- C4 (amended): the date-range-too-large condition holds exactly when
`end_date - start_date` exceeds the configured maximum of 31 days —
equivalently, when the inclusive day count exceeds `maxDateRange + 1` —
and when it holds the HTTP caller receives status 400 with zero weather
rows and exactly one error carrying the message that names the configured
maximum (the raised `WeatherServiceInputError` is converted to data by
the `main.py` handler, never surfaced as a process-fatal exception); the
spec's 33-day example (2024-08-29 … 2024-09-30, ordinals 739127 …
739159, against the 31-day maximum) is rejected this way. -/
theorem c4_range_validation (store : List StoredSummary) (o : ℕ → DayOutcome)
    (lat lon : ℚ) (s e : ℕ) :
    (get_weather_data store o lat lon s e = .error dateRangeErrorMessage
        ↔ (e : ℤ) - (s : ℤ) > maxDateRange) ∧
    ((e : ℤ) - (s : ℤ) > maxDateRange →
      route_get_weather store o lat lon s e
        = ⟨400, [], [.general dateRangeErrorMessage]⟩) ∧
    dateRangeErrorMessage = "Date range exceeds maximum allowed (31 days)" := by
  have hv : _validate_date_range s e = true ↔ (e : ℤ) - (s : ℤ) > maxDateRange := by
    simp [_validate_date_range]
  refine ⟨⟨?_, ?_⟩, ?_, rfl⟩
  · intro hg
    by_cases h : _validate_date_range s e
    · exact hv.mp h
    · rw [get_weather_data, if_neg (by simp [h])] at hg
      exact absurd hg (by simp)
  · intro h
    rw [get_weather_data, if_pos (hv.mpr h)]
  · intro h
    rw [route_get_weather, get_weather_data, if_pos (hv.mpr h)]

/-- Witness for C4: the spec's 33-day example is rejected as a 400 with
the single configured-maximum error. -/
theorem c4_range_validation_witness :
    ((739159 : ℤ) - 739127 > maxDateRange) ∧
    route_get_weather [] (fun _ => DayOutcome.success) 0 0 739127 739159
      = ⟨400, [], [.general dateRangeErrorMessage]⟩ :=
  ⟨by decide,
   (c4_range_validation [] (fun _ => DayOutcome.success) 0 0 739127 739159).2.1
     (by decide)⟩

/-- C6: `get_weather_data_by_name` branches on the geocoding candidate
list, a failed geocoding call counting as zero candidates: zero
candidates → exactly one "not found" error, empty weather data, empty
candidates; two or more candidates → exactly one "specify coordinates
manually" error together with all candidates and no weather lookup (the
store is untouched); exactly one candidate → the coordinate-based resolve
runs on that candidate's coordinates and the candidate is attached to the
response. -/
theorem c6_geocoding_branching (store : List StoredSummary) (o : ℕ → DayOutcome)
    (location_name : String) (s e : ℕ) (h : _validate_date_range s e = false) :
    (∀ g : GeoOutcome, g = .fetchError ∨ g = .ok [] →
      get_weather_data_by_name store o g location_name s e
        = .ok (⟨[], [.general ("Could not find coordinates for location: "
            ++ location_name)], []⟩, store)) ∧
    (∀ (c : GeocodingResult) (cs : List GeocodingResult), cs ≠ [] →
      get_weather_data_by_name store o (.ok (c :: cs)) location_name s e
        = .ok (⟨[], [.general
            "Multiple locations found. Please specify coordinates manually."],
            c :: cs⟩, store)) ∧
    (∀ c : GeocodingResult,
      get_weather_data_by_name store o (.ok [c]) location_name s e
        = .ok (⟨(get_weather_data_core store o c.lat c.lon s e).1.weather_data,
            (get_weather_data_core store o c.lat c.lon s e).1.errors, [c]⟩,
            (get_weather_data_core store o c.lat c.lon s e).2)) := by
  refine ⟨?_, ?_, ?_⟩
  · rintro g (rfl | rfl) <;>
      rw [get_weather_data_by_name, if_neg (by simp [h])]
  · intro c cs hcs
    rw [get_weather_data_by_name, if_neg (by simp [h])]
    cases cs with
    | nil => exact absurd rfl hcs
    | cons c2 cs2 => rfl
  · intro c
    rw [get_weather_data_by_name, if_neg (by simp [h])]

/-- Witness for C6: a failed geocoding call over a valid one-day range is
reported as "not found" with empty results. -/
theorem c6_geocoding_branching_witness :
    _validate_date_range 0 0 = false ∧
    (GeoOutcome.fetchError = GeoOutcome.fetchError ∨
      GeoOutcome.fetchError = GeoOutcome.ok []) ∧
    get_weather_data_by_name [] (fun _ => DayOutcome.success)
        GeoOutcome.fetchError "Benipavel" 0 0
      = .ok (⟨[], [.general "Could not find coordinates for location: Benipavel"],
          []⟩, []) :=
  ⟨by decide, Or.inl rfl,
   (c6_geocoding_branching [] (fun _ => DayOutcome.success) "Benipavel" 0 0
       (by decide)).1 GeoOutcome.fetchError (Or.inl rfl)⟩

/-- The merged row list of `get_weather_data` before sorting: the stored
rows in range plus one summary per successful fetch (the `if api_results`
branch collapses, since an empty result list contributes nothing). -/
theorem get_weather_data_core_weather_data (store : List StoredSummary)
    (o : ℕ → DayOutcome) (lat lon : ℚ) (s e : ℕ) :
    (get_weather_data_core store o lat lon s e).1.weather_data
      = List.insertionSort (fun a b : StoredSummary => a.date ≤ b.date)
          (get_daily_summaries store lat lon s e
            ++ process_data (fetch_weather_data lat lon o
                (missingDates store lat lon s e)).1) := by
  simp only [get_weather_data_core]
  by_cases h : (fetch_weather_data lat lon o (missingDates store lat lon s e)).1.isEmpty
  · have h' : (fetch_weather_data lat lon o (missingDates store lat lon s e)).1 = [] :=
      List.isEmpty_iff.mp h
    simp [h, h', process_data]
  · simp [h, bulk_create_daily_summaries]

/-- The store after `get_weather_data`: the old rows followed by the newly
persisted summaries. -/
theorem get_weather_data_core_store (store : List StoredSummary)
    (o : ℕ → DayOutcome) (lat lon : ℚ) (s e : ℕ) :
    (get_weather_data_core store o lat lon s e).2
      = store ++ process_data (fetch_weather_data lat lon o
            (missingDates store lat lon s e)).1 := by
  simp only [get_weather_data_core]
  by_cases h : (fetch_weather_data lat lon o (missingDates store lat lon s e)).1.isEmpty
  · have h' : (fetch_weather_data lat lon o (missingDates store lat lon s e)).1 = [] :=
      List.isEmpty_iff.mp h
    simp [h, h', process_data]
  · simp [h, bulk_create_daily_summaries]

/-- Dates of the newly persisted summaries: the successfully fetched
subset of the requested dates. -/
theorem process_fetch_dates (lat lon : ℚ) (o : ℕ → DayOutcome) (dates : List ℕ) :
    (process_data (fetch_weather_data lat lon o dates).1).map (·.date)
      = dates.filter fun d => (o d).isSuccess := by
  rw [fetch_weather_data_fst, process_data, List.map_map, List.map_map]
  exact List.map_id _

/-- The newly persisted summaries, as a map over the successfully fetched
dates. -/
theorem process_fetch_rows (lat lon : ℚ) (o : ℕ → DayOutcome) (dates : List ℕ) :
    process_data (fetch_weather_data lat lon o dates).1
      = (dates.filter fun d => (o d).isSuccess).map
          fun d => (⟨lat, lon, d⟩ : StoredSummary) := by
  rw [fetch_weather_data_fst, process_data, List.map_map]
  rfl

/-- Under the store invariant (at most one row per key), the stored rows
returned for one coordinate pair have pairwise distinct dates. -/
theorem existing_dates_nodup {store : List StoredSummary} {lat lon : ℚ} {s e : ℕ}
    (hkey : store.Pairwise fun a b =>
      ¬(a.latitude = b.latitude ∧ a.longitude = b.longitude ∧ a.date = b.date)) :
    ((get_daily_summaries store lat lon s e).map (·.date)).Nodup := by
  rw [List.Nodup, List.pairwise_map]
  have hpw : (get_daily_summaries store lat lon s e).Pairwise fun a b =>
      ¬(a.latitude = b.latitude ∧ a.longitude = b.longitude ∧ a.date = b.date) :=
    List.Pairwise.sublist (List.filter_sublist _) hkey
  refine List.Pairwise.imp_of_mem ?_ hpw
  intro a b ha hb hR hdate
  have ha' := mem_get_daily_summaries.mp ha
  have hb' := mem_get_daily_summaries.mp hb
  exact hR ⟨ha'.2.1.trans hb'.2.1.symm, ha'.2.2.1.trans hb'.2.2.1.symm, hdate⟩

/-- Stable sorting by date turns a list with pairwise distinct dates into
one whose date sequence is strictly ascending. -/
theorem sorted_dates_insertionSort (L : List StoredSummary)
    (h : (L.map (·.date)).Nodup) :
    ((List.insertionSort (fun a b : StoredSummary => a.date ≤ b.date) L).map
        (·.date)).Nodup ∧
    List.Sorted (· < ·)
      ((List.insertionSort (fun a b : StoredSummary => a.date ≤ b.date) L).map
        (·.date)) := by
  haveI : IsTotal StoredSummary (fun a b => a.date ≤ b.date) :=
    ⟨fun a b => Nat.le_total a.date b.date⟩
  haveI : IsTrans StoredSummary (fun a b => a.date ≤ b.date) :=
    ⟨fun a b c h1 h2 => Nat.le_trans h1 h2⟩
  have hperm : (List.insertionSort (fun a b : StoredSummary => a.date ≤ b.date)
      L).Perm L := List.perm_insertionSort _ L
  have hnd : ((List.insertionSort (fun a b : StoredSummary => a.date ≤ b.date)
      L).map (·.date)).Nodup := ((hperm.map (·.date)).nodup_iff).mpr h
  have hsorted := List.sorted_insertionSort
    (fun a b : StoredSummary => a.date ≤ b.date) L
  have hle : List.Sorted (· ≤ ·)
      ((List.insertionSort (fun a b : StoredSummary => a.date ≤ b.date) L).map
        (·.date)) := by
    rw [List.Sorted, List.pairwise_map]
    exact hsorted
  exact ⟨hnd, hle.lt_of_le hnd⟩

/-- C1: for every valid request (start ≤ end, range within the configured
maximum) over a store with at most one row per (latitude, longitude,
date), `get_weather_data` succeeds and its merged result has pairwise
distinct dates (each date of the range appears at most once) and is
strictly ascending by date — the embedding collects fetch outcomes
positionally, so completion order of the concurrent day fetches cannot
influence this. -/
theorem c1_result_sorted_unique (store : List StoredSummary) (o : ℕ → DayOutcome)
    (lat lon : ℚ) (s e : ℕ)
    (hkey : store.Pairwise fun a b =>
      ¬(a.latitude = b.latitude ∧ a.longitude = b.longitude ∧ a.date = b.date))
    (hse : s ≤ e) (hrange : (e : ℤ) - (s : ℤ) ≤ maxDateRange) :
    get_weather_data store o lat lon s e
        = .ok (get_weather_data_core store o lat lon s e) ∧
    ((get_weather_data_core store o lat lon s e).1.weather_data.map
        (·.date)).Nodup ∧
    List.Sorted (· < ·)
      ((get_weather_data_core store o lat lon s e).1.weather_data.map (·.date)) := by
  have hv : _validate_date_range s e = false := by
    simpa [_validate_date_range] using not_lt.mpr hrange
  have hL : ((get_daily_summaries store lat lon s e
      ++ process_data (fetch_weather_data lat lon o
          (missingDates store lat lon s e)).1).map (·.date)).Nodup := by
    rw [List.map_append, List.nodup_append]
    refine ⟨existing_dates_nodup hkey, ?_, ?_⟩
    · rw [process_fetch_dates]
      exact (List.filter_sublist _).nodup (missingDates_sorted store lat lon s e).nodup
    · rw [process_fetch_dates]
      intro d hd1 hd2
      have hdm : d ∈ missingDates store lat lon s e :=
        (List.filter_sublist _).subset hd2
      exact (mem_missingDates.mp hdm).2.2 hd1
  refine ⟨by rw [get_weather_data, if_neg (by simp [hv])], ?_, ?_⟩
  · rw [get_weather_data_core_weather_data]
    exact (sorted_dates_insertionSort _ hL).1
  · rw [get_weather_data_core_weather_data]
    exact (sorted_dates_insertionSort _ hL).2

/-- Witness for C1: a store holding days 6 and 4 (unsorted) for the
coordinates, range [4, 6] with every missing day succeeding. -/
theorem c1_result_sorted_unique_witness :
    (List.Pairwise (fun a b : StoredSummary =>
        ¬(a.latitude = b.latitude ∧ a.longitude = b.longitude ∧ a.date = b.date))
      [⟨1, 2, 6⟩, ⟨1, 2, 4⟩] ∧ (4 : ℕ) ≤ 6 ∧ (6 : ℤ) - (4 : ℤ) ≤ maxDateRange) ∧
    (get_weather_data [⟨1, 2, 6⟩, ⟨1, 2, 4⟩] (fun _ => DayOutcome.success) 1 2 4 6
        = .ok (get_weather_data_core [⟨1, 2, 6⟩, ⟨1, 2, 4⟩]
            (fun _ => DayOutcome.success) 1 2 4 6) ∧
      ((get_weather_data_core [⟨1, 2, 6⟩, ⟨1, 2, 4⟩]
          (fun _ => DayOutcome.success) 1 2 4 6).1.weather_data.map
            (·.date)).Nodup ∧
      List.Sorted (· < ·)
        ((get_weather_data_core [⟨1, 2, 6⟩, ⟨1, 2, 4⟩]
            (fun _ => DayOutcome.success) 1 2 4 6).1.weather_data.map (·.date))) :=
  ⟨⟨by decide, by decide, by decide⟩,
   c1_result_sorted_unique [⟨1, 2, 6⟩, ⟨1, 2, 4⟩] (fun _ => DayOutcome.success)
     1 2 4 6 (by decide) (by decide) (by decide)⟩

/-- C2: the date list handed to the fetcher is exactly the calendar days
of [start, end] not already stored for the coordinates, duplicate-free
and sorted ascending; and on the store produced by a first call, a second
call over the same (lat, lon, range) hands the fetcher only dates the
first call also fetched and whose fetch failed — in particular no date
the first call persisted is ever re-fetched. -/
theorem c2_gap_detection_idempotent (store : List StoredSummary)
    (o : ℕ → DayOutcome) (lat lon : ℚ) (s e : ℕ) :
    (List.Sorted (· < ·) (missingDates store lat lon s e) ∧
     (∀ d : ℕ, d ∈ missingDates store lat lon s e ↔
        s ≤ d ∧ d ≤ e ∧
          ∀ r ∈ store, ¬(r.latitude = lat ∧ r.longitude = lon ∧ r.date = d))) ∧
    (∀ d : ℕ,
      d ∈ missingDates (get_weather_data_core store o lat lon s e).2 lat lon s e →
        d ∈ missingDates store lat lon s e ∧ (o d).isSuccess = false) := by
  refine ⟨⟨missingDates_sorted store lat lon s e, ?_⟩, ?_⟩
  · intro d
    rw [mem_missingDates]
    constructor
    · rintro ⟨h1, h2, h3⟩
      refine ⟨h1, h2, fun r hr => ?_⟩
      rintro ⟨hlat, hlon, hdate⟩
      refine h3 (List.mem_map.mpr ⟨r, mem_get_daily_summaries.mpr
        ⟨hr, hlat, hlon, ?_, ?_⟩, hdate⟩)
      · omega
      · omega
    · rintro ⟨h1, h2, h3⟩
      refine ⟨h1, h2, fun hmem => ?_⟩
      obtain ⟨r, hrmem, hrdate⟩ := List.mem_map.mp hmem
      have hr := mem_get_daily_summaries.mp hrmem
      exact h3 r hr.1 ⟨hr.2.1, hr.2.2.1, hrdate⟩
  · intro d hd
    rw [get_weather_data_core_store] at hd
    have h := mem_missingDates.mp hd
    have hsplit : get_daily_summaries (store
          ++ process_data (fetch_weather_data lat lon o
              (missingDates store lat lon s e)).1) lat lon s e
        = get_daily_summaries store lat lon s e
          ++ get_daily_summaries (process_data (fetch_weather_data lat lon o
              (missingDates store lat lon s e)).1) lat lon s e := by
      simp [get_daily_summaries, List.filter_append]
    rw [hsplit, List.map_append] at h
    have hnot := h.2.2
    rw [List.mem_append] at hnot
    push_neg at hnot
    have hfirst : d ∈ missingDates store lat lon s e :=
      mem_missingDates.mpr ⟨h.1, h.2.1, hnot.1⟩
    refine ⟨hfirst, ?_⟩
    by_contra hsucc
    rw [Bool.not_eq_false] at hsucc
    refine hnot.2 (List.mem_map.mpr ⟨⟨lat, lon, d⟩, ?_, rfl⟩)
    refine mem_get_daily_summaries.mpr ⟨?_, rfl, rfl, h.1, h.2.1⟩
    rw [process_fetch_rows]
    exact List.mem_map.mpr ⟨d, List.mem_filter.mpr ⟨hfirst, hsucc⟩, rfl⟩

/-- Witness for C2's second-call conjunct: the store holds day 5, the
first call over [4, 6] fetches days 4 (success, persisted) and 6
(failure); the second call's missing list is exactly the failed day 6,
never the persisted day 4. -/
theorem c2_gap_detection_idempotent_witness :
    (6 : ℕ) ∈ missingDates
        ((get_weather_data_core [⟨1, 2, 5⟩]
            (fun d => if d = 4 then DayOutcome.success
              else DayOutcome.failure (FetchExc.otherExc "boom")) 1 2 4 6).2)
        1 2 4 6 ∧
    ((6 : ℕ) ∈ missingDates [⟨1, 2, 5⟩] 1 2 4 6 ∧
      ((fun d => if d = 4 then DayOutcome.success
          else DayOutcome.failure (FetchExc.otherExc "boom")) 6).isSuccess
        = false) :=
  ⟨by decide,
   (c2_gap_detection_idempotent [⟨1, 2, 5⟩]
       (fun d => if d = 4 then DayOutcome.success
         else DayOutcome.failure (FetchExc.otherExc "boom")) 1 2 4 6).2 6
     (by decide)⟩
